import Mathlib

/-!
Verification of the reliable-data-transfer simulator (`src/main.py`).

The Python program defines a `Packet` class with a byte-sum checksum, an
`UnreliableChannel`, and three protocol engines: `StopAndWaitRDT`,
`GoBackNRDT`, `SelectiveRepeatRDT`.  This file gives a shallow embedding:

* `Packet`, `computeChecksum`, `Packet.is_corrupt` mirror the packet class.
  Every string the program feeds to the checksum is ASCII, so the Python
  byte sum of the UTF-8 encoding equals the sum of the code points here.
* The engines are embedded twice:
  - an event model (`swSend`, `gbnAckHandler`, ...): `transmit` records the
    packet in a `sent_log` ghost field and delivery happens as a separate
    `receive` event (the channel's delayed mode, delay probability 1);
  - a synchronous closed loop for Selective Repeat (`srSyncSend`, ...):
    `transmit` immediately invokes `receive` on the calling stack, which
    is exactly the channel with loss = corruption = delay = 0.
* Ghost fields `sent_log` (every packet handed to the channel, in order)
  and `send_calls` (number of entries into `send`) instrument the model
  without influencing any behaviour.
-/

inductive PacketType where
  | DATA
  | ACK
deriving DecidableEq, Repr

/-- Python `f"{self.type}"` on the enum member. -/
def pyShowType : PacketType → String
  | .DATA => "PacketType.DATA"
  | .ACK => "PacketType.ACK"

/-- Python `f"{self.payload}"`: `None` prints as "None". -/
def pyShowPayload : Option String → String
  | none => "None"
  | some s => s

/-- Sum of the bytes of an ASCII string (code point = UTF-8 byte). -/
def byteSum (s : String) : Nat := (s.data.map Char.toNat).sum

/-- `Packet._compute_checksum`: `sum(f"{seq}{payload}{type}".encode()) % 256`. -/
def computeChecksum (seq : Int) (payload : Option String) (ty : PacketType) : Nat :=
  byteSum (toString seq ++ pyShowPayload payload ++ pyShowType ty) % 256

structure Packet where
  seq : Int
  payload : Option String
  type : PacketType
  checksum : Nat
deriving DecidableEq, Repr

/-- `Packet.__init__`: the checksum is computed once, at construction. -/
def mkPacket (seq : Int) (payload : Option String) (ty : PacketType) : Packet :=
  { seq := seq, payload := payload, type := ty,
    checksum := computeChecksum seq payload ty }

/-- `Packet.is_corrupt`: stored code versus recomputed code. -/
def Packet.is_corrupt (p : Packet) : Bool :=
  p.checksum != computeChecksum p.seq p.payload p.type

/-- The channel's corruption step: `packet.checksum = (packet.checksum + 1) % 256`. -/
def corruptPacket (p : Packet) : Packet :=
  { p with checksum := (p.checksum + 1) % 256 }

/-- `UnreliableChannel.transmit` with the outcome of each random trial made
an explicit boolean.  A dropped packet is never delivered; a corrupted one
is delivered with only its stored checksum mutated.  The delay trial only
chooses between synchronous and deferred delivery and does not touch the
packet, so it does not appear in the delivered value. -/
def channelTransmit (dropped corrupted : Bool) (p : Packet) : Option Packet :=
  if dropped then none
  else some (if corrupted then corruptPacket p else p)

/-- C5: a freshly constructed packet is never reported corrupt, and a packet
whose stored checksum the channel has incremented mod 256 is always reported
corrupt. -/
theorem packet_integrity_detection (seq : Int) (payload : Option String)
    (ty : PacketType) :
    (mkPacket seq payload ty).is_corrupt = false ∧
    (corruptPacket (mkPacket seq payload ty)).is_corrupt = true := by
  constructor
  · simp [mkPacket, Packet.is_corrupt]
  · simp only [mkPacket, corruptPacket, Packet.is_corrupt, computeChecksum,
      bne_iff_ne, ne_eq]
    omega

/-! ### Shared state helpers

The Python engines keep timers in a dict keyed by sequence number (here: a
duplicate-free `List Int` of armed keys), Selective Repeat's
`pending_packets` in a dict (here: an association list with overwrite), and
the receive buffer in a dict from `received_count` to payload (here: an
append-only association list; `get_data` sorts the keys). -/

/-- Arming `timer[seq]` (dict write: at most one entry per key). -/
def timerInsert (s : Int) (l : List Int) : List Int :=
  if s ∈ l then l else l ++ [s]

/-- `_stop_timer`: `if seq in timer: cancel; del timer[seq]`. -/
def timerErase (s : Int) (l : List Int) : List Int :=
  l.filter (fun t => t != s)

/-- Dict write with overwrite for `pending_packets[k] = v`. -/
def alInsert (k : Int) (v : Packet) (l : List (Int × Packet)) : List (Int × Packet) :=
  (l.filter (fun kv => kv.1 != k)) ++ [(k, v)]

/-- Insert into a sorted list of keys. -/
def insortNat (n : Nat) : List Nat → List Nat
  | [] => [n]
  | m :: ms => if n ≤ m then n :: m :: ms else m :: insortNat n ms

/-- Python `sorted` on the buffer's keys. -/
def sortNats (l : List Nat) : List Nat := l.foldr insortNat []

/-- `get_data`: `[self.buffer[i] for i in sorted(self.buffer)]`. -/
def getData (b : List (Nat × Option String)) : List (Option String) :=
  (sortNats (b.map Prod.fst)).filterMap (fun k => b.lookup k)

/-! ### Stop-and-Wait engine (`StopAndWaitRDT`), event model -/

structure SWState where
  total_packets : Nat
  seq_num : Int
  timer : Bool
  buffer : List (Nat × Option String)
  sent_count : Nat
  received_count : Nat
  pending_packet : Option Packet
  running : Bool
  sent_log : List Packet
  send_calls : Nat
deriving DecidableEq, Repr

/-- `StopAndWaitRDT.__init__`. -/
def swInit (total : Nat) : SWState :=
  { total_packets := total, seq_num := 0, timer := false, buffer := [],
    sent_count := 0, received_count := 0, pending_packet := none,
    running := false, sent_log := [], send_calls := 0 }

/-- `self.channel.transmit(p, self.receive)` in the event model: the packet
is handed to the channel (logged); delivery is a later event. -/
def swTransmit (p : Packet) (st : SWState) : SWState :=
  { st with sent_log := st.sent_log ++ [p] }

/-- `StopAndWaitRDT.send`. -/
def swSend (st : SWState) : SWState :=
  let st := { st with send_calls := st.send_calls + 1 }
  if st.sent_count ≥ st.total_packets then { st with running := false }
  else
    let packet := mkPacket st.seq_num (some ("DATA_" ++ toString st.sent_count))
      PacketType.DATA
    let st := { st with pending_packet := some packet }
    let st := swTransmit packet st
    { st with timer := true }

/-- `StopAndWaitRDT._receiver` (DATA side). -/
def swReceiverData (st : SWState) (packet : Packet) : SWState :=
  if packet.is_corrupt then
    swTransmit (mkPacket (1 - st.seq_num) none PacketType.ACK) st
  else if packet.seq = st.seq_num then
    let st := { st with
      buffer := st.buffer ++ [(st.received_count, packet.payload)],
      received_count := st.received_count + 1 }
    let ack := mkPacket packet.seq none PacketType.ACK
    let st := { st with seq_num := 1 - st.seq_num }
    swTransmit ack st
  else
    swTransmit (mkPacket packet.seq none PacketType.ACK) st

/-- `StopAndWaitRDT._ack_handler`.  Returns `none` when the Python code
raises: `ack.seq == self.pending_packet.seq` dereferences `None` when no
packet has ever been sent. -/
def swAckHandler (st : SWState) (ack : Packet) : Option SWState :=
  if ack.is_corrupt then some st
  else
    match st.pending_packet with
    | none => none
    | some p =>
      if ack.seq = p.seq then
        let st := { st with timer := false }
        let st := { st with sent_count := st.sent_count + 1 }
        some (swSend st)
      else some st

/-- `StopAndWaitRDT.receive` dispatch. -/
def swReceive (st : SWState) (p : Packet) : Option SWState :=
  match p.type with
  | .DATA => some (swReceiverData st p)
  | .ACK => swAckHandler st p

/-- C6: the Stop-and-Wait receiver's three-way case split on an arriving
DATA packet: corrupt → ACK with the complement of the expected bit, buffer
unchanged; expected sequence → payload appended, bit flipped, ACK of the
accepted sequence; otherwise → ACK echoing the packet's own sequence,
buffer unchanged. -/
theorem sw_receiver_cases (st : SWState) (packet : Packet) :
    (packet.is_corrupt = true →
      swReceiverData st packet =
        { st with sent_log := st.sent_log ++
            [mkPacket (1 - st.seq_num) none PacketType.ACK] }) ∧
    (packet.is_corrupt = false → packet.seq = st.seq_num →
      swReceiverData st packet =
        { st with
          buffer := st.buffer ++ [(st.received_count, packet.payload)],
          received_count := st.received_count + 1,
          seq_num := 1 - st.seq_num,
          sent_log := st.sent_log ++ [mkPacket packet.seq none PacketType.ACK] }) ∧
    (packet.is_corrupt = false → packet.seq ≠ st.seq_num →
      swReceiverData st packet =
        { st with sent_log := st.sent_log ++
            [mkPacket packet.seq none PacketType.ACK] }) := by
  refine ⟨fun hc => ?_, fun hc hs => ?_, fun hc hs => ?_⟩
  · simp [swReceiverData, hc, swTransmit]
  · simp [swReceiverData, hc, hs, swTransmit]
  · simp [swReceiverData, hc, hs, swTransmit]

/-- The Stop-and-Wait engine right after `start()` in the event model:
one DATA packet sent and pending. -/
def swDemoState : SWState := swSend { swInit 2 with running := true }

/-- The first DATA packet of a run. -/
def swDemoPending : Packet := mkPacket 0 (some "DATA_0") PacketType.DATA

/-- Witness for C6 at concrete inputs: a corrupted copy of the first DATA
packet, the expected packet itself, and a wrong-sequence duplicate. -/
theorem sw_receiver_cases_witness :
    swReceiverData (swInit 2) (corruptPacket swDemoPending) =
      { swInit 2 with sent_log := (swInit 2).sent_log ++
          [mkPacket (1 - (swInit 2).seq_num) none PacketType.ACK] } ∧
    swReceiverData (swInit 2) swDemoPending =
      { swInit 2 with
        buffer := (swInit 2).buffer ++
          [((swInit 2).received_count, swDemoPending.payload)],
        received_count := (swInit 2).received_count + 1,
        seq_num := 1 - (swInit 2).seq_num,
        sent_log := (swInit 2).sent_log ++
          [mkPacket swDemoPending.seq none PacketType.ACK] } ∧
    swReceiverData (swInit 2) (mkPacket 1 (some "DATA_0") PacketType.DATA) =
      { swInit 2 with sent_log := (swInit 2).sent_log ++
          [mkPacket (mkPacket 1 (some "DATA_0") PacketType.DATA).seq none
            PacketType.ACK] } :=
  ⟨(sw_receiver_cases (swInit 2) (corruptPacket swDemoPending)).1 (by decide),
   (sw_receiver_cases (swInit 2) swDemoPending).2.1 (by decide) (by decide),
   (sw_receiver_cases (swInit 2)
      (mkPacket 1 (some "DATA_0") PacketType.DATA)).2.2 (by decide) (by decide)⟩

/-- C7: the Stop-and-Wait ACK handler with a pending unit: a corrupt ACK
leaves the state unchanged; a matching ACK cancels the timer, increments
the sent count and invokes `send`; a mismatched ACK leaves the state
unchanged. -/
theorem sw_ack_handler_cases (st : SWState) (ack p : Packet)
    (hp : st.pending_packet = some p) :
    (ack.is_corrupt = true → swAckHandler st ack = some st) ∧
    (ack.is_corrupt = false → ack.seq = p.seq →
      swAckHandler st ack =
        some (swSend
          { st with timer := false, sent_count := st.sent_count + 1 })) ∧
    (ack.is_corrupt = false → ack.seq ≠ p.seq →
      swAckHandler st ack = some st) := by
  refine ⟨fun hc => ?_, fun hc hs => ?_, fun hc hs => ?_⟩
  · simp [swAckHandler, hc]
  · simp [swAckHandler, hc, hp, hs]
  · simp [swAckHandler, hc, hp, hs]

/-- Witness for C7 at concrete inputs, on the state right after `start()`. -/
theorem sw_ack_handler_cases_witness :
    swAckHandler swDemoState (corruptPacket (mkPacket 0 none PacketType.ACK)) =
      some swDemoState ∧
    swAckHandler swDemoState (mkPacket 0 none PacketType.ACK) =
      some (swSend
        { swDemoState with timer := false,
                           sent_count := swDemoState.sent_count + 1 }) ∧
    swAckHandler swDemoState (mkPacket 1 none PacketType.ACK) =
      some swDemoState :=
  ⟨(sw_ack_handler_cases swDemoState _ swDemoPending (by decide)).1 (by decide),
   (sw_ack_handler_cases swDemoState _ swDemoPending (by decide)).2.1
      (by decide) (by decide),
   (sw_ack_handler_cases swDemoState _ swDemoPending (by decide)).2.2
      (by decide) (by decide)⟩

/-- C10: a non-corrupt ACK delivered to a freshly constructed engine, on
which `send` was never called, makes the ACK handler dereference the
`None` pending packet and fail; and any `send` that still has packets to
issue establishes a pending packet, so the failure is unreachable once
`send` has run. -/
theorem sw_ack_handler_none_deref :
    (∀ (total : Nat) (ack : Packet), ack.is_corrupt = false →
      swAckHandler (swInit total) ack = none) ∧
    (∀ st : SWState, st.sent_count < st.total_packets →
      (swSend st).pending_packet.isSome = true) := by
  constructor
  · intro total ack hc
    simp [swAckHandler, hc, swInit]
  · intro st h
    simp only [swSend, swTransmit]
    split
    · omega
    · simp

/-- Witness for C10: a concrete valid ACK crashes the fresh engine, and the
first `send` of a run makes `pending_packet` present. -/
theorem sw_ack_handler_none_deref_witness :
    swAckHandler (swInit 10) (mkPacket 0 none PacketType.ACK) = none ∧
    (swSend (swInit 10)).pending_packet.isSome = true :=
  ⟨sw_ack_handler_none_deref.1 10 _ (by decide),
   sw_ack_handler_none_deref.2 (swInit 10) (by decide)⟩

/-! ### Go-Back-N engine (`GoBackNRDT`), event model -/

structure GBNState where
  total_packets : Nat
  window_size : Nat
  seq_num : Int
  ack_received : Int
  timer : List Int
  buffer : List (Nat × Option String)
  pending_packets : List Packet
  sent_count : Nat
  received_count : Nat
  running : Bool
  sent_log : List Packet
  send_calls : Nat
deriving DecidableEq, Repr

/-- `GoBackNRDT.__init__`. -/
def gbnInit (total window : Nat) : GBNState :=
  { total_packets := total, window_size := window, seq_num := 0,
    ack_received := 0, timer := [], buffer := [], pending_packets := [],
    sent_count := 0, received_count := 0, running := false,
    sent_log := [], send_calls := 0 }

def gbnTransmit (p : Packet) (st : GBNState) : GBNState :=
  { st with sent_log := st.sent_log ++ [p] }

def gbnStartTimer (s : Int) (st : GBNState) : GBNState :=
  { st with timer := timerInsert s st.timer }

def gbnStopTimer (s : Int) (st : GBNState) : GBNState :=
  { st with timer := timerErase s st.timer }

/-- One iteration of the `for i in range(self.window_size)` loop in
`GoBackNRDT.send`. -/
def gbnSendIter (st : GBNState) (i : Nat) : GBNState :=
  if st.sent_count + i < st.total_packets then
    let packet := mkPacket (st.seq_num + (i : Int))
      (some ("DATA_" ++ toString (st.sent_count + i))) PacketType.DATA
    let st := { st with pending_packets := st.pending_packets ++ [packet] }
    let st := gbnTransmit packet st
    gbnStartTimer (st.seq_num + (i : Int)) st
  else st

/-- `GoBackNRDT.send`: fill a window, then `self.seq_num += self.window_size`. -/
def gbnSend (st : GBNState) : GBNState :=
  let st := { st with send_calls := st.send_calls + 1 }
  if st.sent_count ≥ st.total_packets then { st with running := false }
  else
    let st := (List.range st.window_size).foldl gbnSendIter st
    { st with seq_num := st.seq_num + (st.window_size : Int) }

/-- `GoBackNRDT._receiver` (DATA side). -/
def gbnReceiverData (st : GBNState) (packet : Packet) : GBNState :=
  if packet.is_corrupt then
    gbnTransmit (mkPacket (1 - st.seq_num) none PacketType.ACK) st
  else if packet.seq = st.ack_received then
    let st := { st with
      buffer := st.buffer ++ [(st.received_count, packet.payload)],
      received_count := st.received_count + 1 }
    let ack := mkPacket packet.seq none PacketType.ACK
    let st := { st with ack_received := st.ack_received + 1 }
    gbnTransmit ack st
  else
    gbnTransmit (mkPacket packet.seq none PacketType.ACK) st

/-- `GoBackNRDT._ack_handler`: window guard
`ack.seq >= self.seq_num - self.window_size and ack.seq < self.seq_num`. -/
def gbnAckHandler (st : GBNState) (ack : Packet) : GBNState :=
  if ack.is_corrupt then st
  else if st.seq_num - (st.window_size : Int) ≤ ack.seq ∧ ack.seq < st.seq_num then
    let st := gbnStopTimer ack.seq st
    let st := { st with sent_count := st.sent_count + 1 }
    if st.sent_count < st.total_packets then gbnSend st else st
  else st

/-- `GoBackNRDT.receive` dispatch. -/
def gbnReceive (st : GBNState) (p : Packet) : GBNState :=
  match p.type with
  | .DATA => gbnReceiverData st p
  | .ACK => gbnAckHandler st p

/-- `GoBackNRDT._on_timeout`: retransmit `pending_packets[i % window_size]`
for `i in range(self.seq_num, min(self.seq_num + window_size, total))` and
arm `timer[i]`.  The `seq_num` argument is only printed by the Python code.
Returns `none` on an out-of-range list index (Python `IndexError`). -/
def gbnOnTimeout (st : GBNState) (_s : Int) : Option GBNState :=
  let lo := st.seq_num
  let hi := min (st.seq_num + (st.window_size : Int)) ((st.total_packets : Int))
  ((List.range (hi - lo).toNat).map (fun k => lo + (k : Int))).foldl
    (fun acc i => acc.bind (fun st =>
      match st.pending_packets.get? (i % ((st.window_size : Int))).toNat with
      | none => none
      | some p => some (gbnStartTimer i (gbnTransmit p st)))) (some st)

/-! Concrete Go-Back-N run used by C2 and C4: total 5, window 4, and the
channel in its delayed mode (every delivery is a later event), with no
loss and no corruption: the delivered packets below are exactly packets
the engine previously handed to the channel. -/

/-- State after `start()`. -/
def gbnS1 : GBNState := gbnSend { gbnInit 5 4 with running := true }

/-- The first DATA packet, as sent in `gbnS1`. -/
def gbnP0 : Packet := mkPacket 0 (some "DATA_0") PacketType.DATA

/-- The ACK the receiver answers `gbnP0` with. -/
def gbnAck0 : Packet := mkPacket 0 none PacketType.ACK

/-- State after the receiver side has handled the delivery of `gbnP0`. -/
def gbnS2 : GBNState := gbnReceive gbnS1 gbnP0

/-- State after the sender side has handled the delivery of `gbnAck0`. -/
def gbnS3 : GBNState := gbnReceive gbnS2 gbnAck0

/-- C2 fails on the code: after `start()` (4 units in flight), delivering
the first DATA unit and then its ACK — both packets the engine itself put
on the channel — makes the accepted ACK trigger a fresh `send` of four
more units while seqs 1–3 are still unacknowledged: 7 armed timers (one
per unacknowledged in-flight unit) and 8 pending units minus 1 accepted
ACK, both exceeding the window size 4. -/
theorem gbn_window_bound_violated :
    gbnP0 ∈ gbnS1.sent_log ∧ gbnAck0 ∈ gbnS2.sent_log ∧
    gbnS3.window_size = 4 ∧
    gbnS3.timer = [1, 2, 3, 4, 5, 6, 7] ∧
    gbnS3.pending_packets.length - gbnS3.sent_count = 7 := by decide

/-- C4 fails on the code: in `gbnS1` all four units (seqs 0–3) are
unacknowledged and their timers armed, yet `_on_timeout` retransmits only
`pending_packets[0]` (the range `range(seq_num, min(seq_num+4, 5))` is the
single index 4, and `4 % 4 = 0`) and arms a timer for seq 4 — a sequence
that was never transmitted — instead of retransmitting all four
outstanding units and re-arming their timers. -/
theorem gbn_timeout_retransmits_wrong_set :
    gbnS1.sent_count = 0 ∧
    gbnS1.timer = [0, 1, 2, 3] ∧
    gbnS1.pending_packets.map Packet.seq = [0, 1, 2, 3] ∧
    gbnOnTimeout gbnS1 0 =
      some { gbnS1 with sent_log := gbnS1.sent_log ++ [gbnP0],
                        timer := [0, 1, 2, 3, 4] } := by decide

/-! ### Selective Repeat engine (`SelectiveRepeatRDT`), event model -/

structure SRState where
  total_packets : Nat
  window_size : Nat
  seq_num : Int
  ack_received : Int
  timer : List Int
  buffer : List (Nat × Option String)
  pending_packets : List (Int × Packet)
  sent_count : Nat
  received_count : Nat
  running : Bool
  sent_log : List Packet
  send_calls : Nat
deriving DecidableEq, Repr

/-- `SelectiveRepeatRDT.__init__`. -/
def srInit (total window : Nat) : SRState :=
  { total_packets := total, window_size := window, seq_num := 0,
    ack_received := 0, timer := [], buffer := [], pending_packets := [],
    sent_count := 0, received_count := 0, running := false,
    sent_log := [], send_calls := 0 }

def srTransmit (p : Packet) (st : SRState) : SRState :=
  { st with sent_log := st.sent_log ++ [p] }

def srStartTimer (s : Int) (st : SRState) : SRState :=
  { st with timer := timerInsert s st.timer }

def srStopTimer (s : Int) (st : SRState) : SRState :=
  { st with timer := timerErase s st.timer }

/-- One iteration of the `for i in range(self.window_size)` loop in
`SelectiveRepeatRDT.send`: the unit is tracked in the `pending_packets`
dict under its sequence; entries are never deleted anywhere. -/
def srSendIter (st : SRState) (i : Nat) : SRState :=
  if st.sent_count + i < st.total_packets then
    let packet := mkPacket (st.seq_num + (i : Int))
      (some ("DATA_" ++ toString (st.sent_count + i))) PacketType.DATA
    let st := { st with
      pending_packets := alInsert (st.seq_num + (i : Int)) packet st.pending_packets }
    let st := srTransmit packet st
    srStartTimer (st.seq_num + (i : Int)) st
  else st

/-- `SelectiveRepeatRDT.send`. -/
def srSend (st : SRState) : SRState :=
  let st := { st with send_calls := st.send_calls + 1 }
  if st.sent_count ≥ st.total_packets then { st with running := false }
  else
    let st := (List.range st.window_size).foldl srSendIter st
    { st with seq_num := st.seq_num + (st.window_size : Int) }

/-- `SelectiveRepeatRDT._receiver` (DATA side). -/
def srReceiverData (st : SRState) (packet : Packet) : SRState :=
  if packet.is_corrupt then
    srTransmit (mkPacket (1 - st.seq_num) none PacketType.ACK) st
  else if packet.seq = st.ack_received then
    let st := { st with
      buffer := st.buffer ++ [(st.received_count, packet.payload)],
      received_count := st.received_count + 1 }
    let ack := mkPacket packet.seq none PacketType.ACK
    let st := { st with ack_received := st.ack_received + 1 }
    srTransmit ack st
  else
    srTransmit (mkPacket packet.seq none PacketType.ACK) st

/-- `SelectiveRepeatRDT._ack_handler`: accept iff
`ack.seq in self.pending_packets`. -/
def srAckHandler (st : SRState) (ack : Packet) : SRState :=
  if ack.is_corrupt then st
  else if (st.pending_packets.lookup ack.seq).isSome then
    let st := srStopTimer ack.seq st
    let st := { st with sent_count := st.sent_count + 1 }
    if st.sent_count < st.total_packets then srSend st else st
  else st

/-- `SelectiveRepeatRDT.receive` dispatch. -/
def srReceive (st : SRState) (p : Packet) : SRState :=
  match p.type with
  | .DATA => srReceiverData st p
  | .ACK => srAckHandler st p

/-- `SelectiveRepeatRDT._on_timeout`: retransmit `pending_packets[seq]`
and re-arm `timer[seq]`; `none` models the Python `KeyError` when the
sequence is not tracked. -/
def srOnTimeout (st : SRState) (s : Int) : Option SRState :=
  match st.pending_packets.lookup s with
  | none => none
  | some p => some (srStartTimer s (srTransmit p st))

/-- C8: when sequence `s` is tracked in `pending_packets`, the timeout
handler retransmits exactly the stored unit for `s`, unchanged, and
re-arms exactly the timer for `s`: the resulting state differs from the
input only by appending that one unit to the transmission log and adding
`s` to the armed-timer set — pending units, buffer, counters and all
other timers are untouched. -/
theorem sr_timeout_selective (st : SRState) (s : Int) (p : Packet)
    (hp : st.pending_packets.lookup s = some p) :
    srOnTimeout st s =
      some { st with sent_log := st.sent_log ++ [p],
                     timer := timerInsert s st.timer } := by
  simp [srOnTimeout, hp, srTransmit, srStartTimer]

/-! Concrete Selective Repeat run used by C3 and C8: total 3, window 2,
channel in delayed mode with no loss and no corruption. -/

/-- State after `start()`: units 0 and 1 sent and pending. -/
def srS1 : SRState := srSend { srInit 3 2 with running := true }

/-- The first DATA packet, as sent in `srS1`. -/
def srP0 : Packet := mkPacket 0 (some "DATA_0") PacketType.DATA

/-- The ACK the receiver answers `srP0` with. -/
def srAck0 : Packet := mkPacket 0 none PacketType.ACK

/-- State after the receiver handled the delivery of `srP0` (it transmits
`srAck0`). -/
def srS1b : SRState := srReceive srS1 srP0

/-- State after the sender accepted the first delivery of `srAck0`. -/
def srS2 : SRState := srAckHandler srS1b srAck0

/-- State after the second delivery of the same ACK. -/
def srS3 : SRState := srAckHandler srS2 srAck0

/-- Witness for C8 at a concrete input: timing out sequence 0 in `srS1`
retransmits the stored unit 0 and re-arms its timer only. -/
theorem sr_timeout_selective_witness :
    srOnTimeout srS1 0 =
      some { srS1 with sent_log := srS1.sent_log ++ [srP0],
                       timer := timerInsert 0 srS1.timer } :=
  sr_timeout_selective srS1 0 srP0 (by decide)

/-- C3 is false for Selective Repeat: in `srS2` the valid ACK `srAck0`
(emitted by the receiver itself) has already been accepted — `sent_count`
rose and the window moved from 2 to 4 — yet delivering the same ACK a
second time is accepted again, because `pending_packets` entries are never
removed: it triggers another `send` call and moves the window to 6. -/
theorem sr_duplicate_ack_retriggers_send :
    srAck0.is_corrupt = false ∧
    srAck0 ∈ srS1b.sent_log ∧
    srS2.sent_count = srS1b.sent_count + 1 ∧
    srS1b.seq_num = 2 ∧ srS2.seq_num = 4 ∧
    srS3.send_calls = srS2.send_calls + 1 ∧
    srS3.seq_num = 6 ∧
    srS3.sent_count = srS2.sent_count + 1 := by decide

/-! Helper facts for the windowed senders: the body of the send loop never
touches the window position or the progress counters; only the final
`seq_num += window_size` of `send` moves the window. -/

theorem gbnSendIter_fields (st : GBNState) (i : Nat) :
    (gbnSendIter st i).seq_num = st.seq_num ∧
    (gbnSendIter st i).sent_count = st.sent_count ∧
    (gbnSendIter st i).window_size = st.window_size ∧
    (gbnSendIter st i).total_packets = st.total_packets := by
  unfold gbnSendIter gbnTransmit gbnStartTimer
  split <;> simp

theorem gbnSendFold_fields (l : List Nat) (st : GBNState) :
    ((l.foldl gbnSendIter st).seq_num = st.seq_num ∧
     (l.foldl gbnSendIter st).sent_count = st.sent_count ∧
     (l.foldl gbnSendIter st).window_size = st.window_size ∧
     (l.foldl gbnSendIter st).total_packets = st.total_packets) := by
  induction l generalizing st with
  | nil => simp
  | cons a l ih =>
    simp only [List.foldl_cons]
    have h := gbnSendIter_fields st a
    have h2 := ih (gbnSendIter st a)
    exact ⟨h2.1.trans h.1, h2.2.1.trans h.2.1, h2.2.2.1.trans h.2.2.1,
      h2.2.2.2.trans h.2.2.2⟩

theorem gbnSend_fields (st : GBNState) (h : st.sent_count < st.total_packets) :
    (gbnSend st).seq_num = st.seq_num + (st.window_size : Int) ∧
    (gbnSend st).window_size = st.window_size := by
  have hfold := gbnSendFold_fields (List.range st.window_size)
    { st with send_calls := st.send_calls + 1 }
  simp only [gbnSend]
  rw [if_neg (by simp; omega)]
  constructor
  · simp [hfold.1, hfold.2.2.1]
  · simp [hfold.2.2.1]

theorem srSendIter_fields (st : SRState) (i : Nat) :
    (srSendIter st i).seq_num = st.seq_num ∧
    (srSendIter st i).sent_count = st.sent_count ∧
    (srSendIter st i).send_calls = st.send_calls ∧
    (srSendIter st i).window_size = st.window_size ∧
    (srSendIter st i).total_packets = st.total_packets := by
  unfold srSendIter srTransmit srStartTimer
  split <;> simp

theorem srSendFold_fields (l : List Nat) (st : SRState) :
    ((l.foldl srSendIter st).seq_num = st.seq_num ∧
     (l.foldl srSendIter st).sent_count = st.sent_count ∧
     (l.foldl srSendIter st).send_calls = st.send_calls ∧
     (l.foldl srSendIter st).window_size = st.window_size ∧
     (l.foldl srSendIter st).total_packets = st.total_packets) := by
  induction l generalizing st with
  | nil => simp
  | cons a l ih =>
    simp only [List.foldl_cons]
    have h := srSendIter_fields st a
    have h2 := ih (srSendIter st a)
    exact ⟨h2.1.trans h.1, h2.2.1.trans h.2.1, h2.2.2.1.trans h.2.2.1,
      h2.2.2.2.1.trans h.2.2.2.1, h2.2.2.2.2.trans h.2.2.2.2⟩

theorem srSend_fields (st : SRState) (h : st.sent_count < st.total_packets) :
    (srSend st).send_calls = st.send_calls + 1 ∧
    (srSend st).sent_count = st.sent_count ∧
    (srSend st).seq_num = st.seq_num + (st.window_size : Int) := by
  have hfold := srSendFold_fields (List.range st.window_size)
    { st with send_calls := st.send_calls + 1 }
  simp only [srSend]
  rw [if_neg (by simp; omega)]
  refine ⟨?_, ?_, ?_⟩
  · simp [hfold.2.2.1]
  · simp [hfold.2.1]
  · simp [hfold.1, hfold.2.2.2.1]

/-- Shape of an accepted Go-Back-N ACK: timer for that sequence cancelled,
sent count incremented, and (when packets remain) `send` invoked. -/
theorem gbn_ack_accept_shape (st : GBNState) (ack : Packet)
    (hc : ack.is_corrupt = false)
    (hg : st.seq_num - (st.window_size : Int) ≤ ack.seq ∧ ack.seq < st.seq_num)
    (hlt : st.sent_count + 1 < st.total_packets) :
    gbnAckHandler st ack =
      gbnSend { st with timer := timerErase ack.seq st.timer,
                        sent_count := st.sent_count + 1 } := by
  unfold gbnAckHandler gbnStopTimer
  rw [hc]
  simp only [Bool.false_eq_true, if_false]
  rw [if_pos hg, if_pos hlt]

/-- Shape of an accepted Selective Repeat ACK. -/
theorem sr_ack_accept_shape (st : SRState) (ack : Packet)
    (hc : ack.is_corrupt = false)
    (hp : (st.pending_packets.lookup ack.seq).isSome = true)
    (hlt : st.sent_count + 1 < st.total_packets) :
    srAckHandler st ack =
      srSend { st with timer := timerErase ack.seq st.timer,
                       sent_count := st.sent_count + 1 } := by
  unfold srAckHandler srStopTimer
  rw [hc]
  simp only [Bool.false_eq_true, if_false]
  rw [hp]
  simp only [if_true]
  rw [if_pos hlt]

/-- C3 amended.  Go-Back-N behaves as claimed: once a valid ACK for `S` is
accepted and (packets remaining) triggers a `send` that advances the
window by `window_size`, delivering the same ACK again fails the window
guard and leaves the state entirely unchanged — window position intact and
no further `send`.  Selective Repeat does not: `pending_packets` entries
are never removed, so the duplicated valid ACK is accepted again, its
`send_calls` grows by one (a fresh `send` is triggered), `sent_count`
advances, and the window moves forward by another `window_size`. -/
theorem duplicate_ack_amended :
    (∀ (st : GBNState) (ack : Packet), ack.is_corrupt = false →
      st.seq_num - (st.window_size : Int) ≤ ack.seq → ack.seq < st.seq_num →
      st.sent_count + 1 < st.total_packets →
      gbnAckHandler (gbnAckHandler st ack) ack = gbnAckHandler st ack) ∧
    (∀ (st : SRState) (ack : Packet), ack.is_corrupt = false →
      (st.pending_packets.lookup ack.seq).isSome = true →
      st.sent_count + 1 < st.total_packets →
      (srAckHandler st ack).send_calls = st.send_calls + 1 ∧
      (srAckHandler st ack).sent_count = st.sent_count + 1 ∧
      (srAckHandler st ack).seq_num = st.seq_num + (st.window_size : Int)) := by
  constructor
  · intro st ack hc hg1 hg2 hlt
    have hshape := gbn_ack_accept_shape st ack hc ⟨hg1, hg2⟩ hlt
    have hf := gbnSend_fields
      { st with timer := timerErase ack.seq st.timer,
                sent_count := st.sent_count + 1 } hlt
    rw [hshape]
    unfold gbnAckHandler
    rw [hc]
    simp only [Bool.false_eq_true, if_false]
    rw [if_neg]
    rintro ⟨hle, _⟩
    rw [hf.1, hf.2] at hle
    simp at hle
    omega
  · intro st ack hc hp hlt
    have hshape := sr_ack_accept_shape st ack hc hp hlt
    have hf := srSend_fields
      { st with timer := timerErase ack.seq st.timer,
                sent_count := st.sent_count + 1 } hlt
    rw [hshape]
    exact ⟨hf.1, hf.2.1, hf.2.2⟩

/-- Witness for the amended C3 at concrete inputs: the Go-Back-N state
after `start()` with the first ACK, and the Selective Repeat state `srS2`
that has already accepted `srAck0` once. -/
theorem duplicate_ack_amended_witness :
    gbnAckHandler (gbnAckHandler gbnS1 gbnAck0) gbnAck0 =
      gbnAckHandler gbnS1 gbnAck0 ∧
    ((srAckHandler srS2 srAck0).send_calls = srS2.send_calls + 1 ∧
     (srAckHandler srS2 srAck0).sent_count = srS2.sent_count + 1 ∧
     (srAckHandler srS2 srAck0).seq_num = srS2.seq_num + (srS2.window_size : Int)) :=
  ⟨duplicate_ack_amended.1 gbnS1 gbnAck0 (by decide) (by decide) (by decide)
      (by decide),
   duplicate_ack_amended.2 srS2 srAck0 (by decide) (by decide) (by decide)⟩

/-! ### Selective Repeat under the synchronous perfect channel (C1)

With loss = corruption = delay = 0, `random.random() < 0` is always false,
so every `transmit` invokes the receive callback synchronously on the
calling stack and delivers the packet unmodified.  `srSyncExec` transcribes
that closed loop as one fuel-indexed interpreter whose `SyncCall` tag names
the Python method being entered: `send` is `SelectiveRepeatRDT.send`,
`loop i` the rest of its `for i in range(window_size)` loop starting at
iteration `i`, `recv p` is `receive(p)` (a synchronous delivery), and
`recvData` / `ackH` are `_receiver` / `_ack_handler`.  `fuel` bounds the
call depth; a `some` result means the Python execution finished.  Each
`self.<field>` read happens at its Python program point, which matters:
nested `send`s triggered by synchronously delivered ACKs mutate
`sent_count` and `seq_num` mid-loop. -/

inductive SyncCall where
  | send : SyncCall
  | loop (i : Nat) : SyncCall
  | recv (p : Packet) : SyncCall
  | recvData (p : Packet) : SyncCall
  | ackH (p : Packet) : SyncCall

def srSyncExec : Nat → SyncCall → SRState → Option SRState
  | 0, _, _ => none
  | f + 1, c, st =>
    match c with
    | .send =>
      let st := { st with send_calls := st.send_calls + 1 }
      if st.sent_count ≥ st.total_packets then some { st with running := false }
      else
        match srSyncExec f (.loop 0) st with
        | none => none
        | some st => some { st with seq_num := st.seq_num + (st.window_size : Int) }
    | .loop i =>
      if i ≥ st.window_size then some st
      else if st.sent_count + i < st.total_packets then
        let packet := mkPacket (st.seq_num + (i : Int))
          (some ("DATA_" ++ toString (st.sent_count + i))) PacketType.DATA
        let st := { st with
          pending_packets := alInsert (st.seq_num + (i : Int)) packet st.pending_packets }
        let st := srTransmit packet st
        match srSyncExec f (.recv packet) st with
        | none => none
        | some st => srSyncExec f (.loop (i + 1)) (srStartTimer (st.seq_num + (i : Int)) st)
      else srSyncExec f (.loop (i + 1)) st
    | .recv p =>
      match p.type with
      | .DATA => srSyncExec f (.recvData p) st
      | .ACK => srSyncExec f (.ackH p) st
    | .recvData packet =>
      if packet.is_corrupt then
        let ack := mkPacket (1 - st.seq_num) none PacketType.ACK
        srSyncExec f (.recv ack) (srTransmit ack st)
      else if packet.seq = st.ack_received then
        let st := { st with
          buffer := st.buffer ++ [(st.received_count, packet.payload)],
          received_count := st.received_count + 1 }
        let ack := mkPacket packet.seq none PacketType.ACK
        let st := { st with ack_received := st.ack_received + 1 }
        srSyncExec f (.recv ack) (srTransmit ack st)
      else
        let ack := mkPacket packet.seq none PacketType.ACK
        srSyncExec f (.recv ack) (srTransmit ack st)
    | .ackH ack =>
      if ack.is_corrupt then some st
      else if (st.pending_packets.lookup ack.seq).isSome then
        let st := srStopTimer ack.seq st
        let st := { st with sent_count := st.sent_count + 1 }
        if st.sent_count < st.total_packets then srSyncExec f .send st else some st
      else some st

/-- `SelectiveRepeatRDT.start()` under the perfect synchronous channel. -/
def srSyncStart (f : Nat) (st : SRState) : Option SRState :=
  srSyncExec f .send { st with running := true }

set_option maxHeartbeats 4000000 in
/-- C1 fails on the code: running `start()` to completion on a
Selective Repeat engine with 2 packets, window 4, over the perfect
synchronous channel (loss = corruption = delay = 0) hands both payloads
"DATA_0" and "DATA_1" to the channel as DATA units and consumes both sent
slots (`sent_count` ends at `total_packets`), yet `get_data()` returns
only `["DATA_0"]` — a gap.  The cause: the nested `send` triggered by the
synchronously delivered ACK runs before `seq_num += window_size`, so
"DATA_1" is sent with the reused sequence 0 and rejected by the receiver
as out of order; and since the stored pending unit for key 0 keeps
sequence 0 while the receiver expects 1, every later retransmission of it
is rejected the same way. -/
theorem sr_lossless_run_loses_payload :
    (srSyncStart 40 (srInit 2 4)).map (fun st =>
      (st.sent_log.filter (fun p => p.type == PacketType.DATA)).map
        Packet.payload) = some [some "DATA_0", some "DATA_1"] ∧
    (srSyncStart 40 (srInit 2 4)).map (fun st => st.sent_count) = some 2 ∧
    (srSyncStart 40 (srInit 2 4)).map (fun st => getData st.buffer) =
      some [some "DATA_0"] ∧
    (srSyncStart 40 (srInit 2 4)).map (fun st => st.pending_packets.lookup 0) =
      some (some (mkPacket 0 (some "DATA_1") PacketType.DATA)) ∧
    (srSyncStart 40 (srInit 2 4)).map (fun st => st.ack_received) = some 1 := by
  decide

/-- C9: whatever the channel's random trials decide, a delivered packet
keeps the sequence, payload and type it was submitted with; the only field
`transmit` ever mutates is the stored checksum, and only in the corruption
case, where it becomes `(checksum + 1) % 256`. -/
theorem channel_frame_effect (dropped corrupted : Bool) (p q : Packet)
    (h : channelTransmit dropped corrupted p = some q) :
    q.seq = p.seq ∧ q.payload = p.payload ∧ q.type = p.type ∧
    (corrupted = false → q.checksum = p.checksum) ∧
    (corrupted = true → q.checksum = (p.checksum + 1) % 256) := by
  cases dropped
  · cases corrupted
    · simp_all [channelTransmit]
    · simp_all [channelTransmit, corruptPacket]
      simp [← h]
  · simp [channelTransmit] at h

/-- Witness for C9: the corrupting, non-dropping channel applied to the
first DATA packet of a run. -/
theorem channel_frame_effect_witness :
    (corruptPacket swDemoPending).seq = swDemoPending.seq ∧
    (corruptPacket swDemoPending).payload = swDemoPending.payload ∧
    (corruptPacket swDemoPending).type = swDemoPending.type ∧
    (true = false → (corruptPacket swDemoPending).checksum = swDemoPending.checksum) ∧
    (true = true →
      (corruptPacket swDemoPending).checksum = (swDemoPending.checksum + 1) % 256) :=
  channel_frame_effect false true swDemoPending (corruptPacket swDemoPending)
    (by decide)
